import Mathlib

/-!
Shallow embedding of the four Supabase edge-function handlers of the
notebook-llm repository:

* `src/supabase/functions/process-document/index.ts`
* `src/supabase/functions/process-additional-sources/index.ts`
* `src/supabase/functions/send-chat-message/index.ts` (two handlers: the
  chat relay and the embedded generate-notebook-content handler)

Each handler is embedded as a pure Lean function from the parsed request,
the process environment, and a "world" record holding the outcomes of the
external collaborators (identity verifier, resource store lookups, the
outbound fetch) to an `Outcome`: the HTTP status, the error message of the
JSON body (when any), and the ordered trace of store writes and outbound
dispatches the handler performed.
-/

namespace NotebookLlm

/-- JavaScript truthiness for an optional string: `undefined`/`null` and the
empty string are falsy (`if (!x)` in the source). -/
def isFalsy : Option String → Bool
  | none => true
  | some s => s = ""

/-- Rendering of a possibly-undefined value inside a JS template literal:
`undefined` renders as the string "undefined". -/
def envStr : Option String → String
  | none => "undefined"
  | some s => s

/-- `x || d` on strings in JS: the default is taken when `x` is falsy. -/
def jsOr (x : Option String) (d : String) : String :=
  if isFalsy x then d else x.getD d

/-- `response.ok` of the Fetch API: status in the 2xx range. -/
def responseOk (status : Nat) : Bool := 200 ≤ status && status < 300

/-- A value written to a column of the resource store. -/
inductive DbValue where
  | str (s : String)
  | null
  | strList (l : List String)
deriving DecidableEq

/-- The outbound job payloads, one constructor per job kind.  `Option`
fields are fields copied from the request body that may be `undefined`. -/
inductive Payload where
  | doc (source_id file_url file_path source_type callback_url : String)
  | multipleWebsites (notebookId : Option String) (urls sourceIds : Option (List String))
      (timestamp : Option String)
  | copiedText (notebookId title content sourceId timestamp : Option String)
  | generation (sourceType : String) (filePath content : Option String)
  | chat (session_id message : Option String) (user_id timestamp : String)
deriving DecidableEq

/-- An observable side effect of one call: a store write (table, column
assignments, row id) or an outbound dispatch (url, authorization header,
payload). -/
inductive Event where
  | write (table : String) (fields : List (String × DbValue)) (rowId : String)
  | dispatch (url : String) (authHdr : Option String) (payload : Payload)
deriving DecidableEq

def Event.isDispatch : Event → Bool
  | .dispatch _ _ _ => true
  | _ => false

def Event.isWrite : Event → Bool
  | .write _ _ _ => true
  | _ => false

def Event.payloadOf : Event → Option Payload
  | .dispatch _ _ p => some p
  | _ => none

/-- Result of one call: HTTP status, error message of the JSON body (if
any), and the chronological trace of effects. -/
structure Outcome where
  status : Nat
  errorMsg : Option String
  trace : List Event
deriving DecidableEq

def Outcome.dispatches (o : Outcome) : List Event := o.trace.filter Event.isDispatch

def Outcome.writes (o : Outcome) : List Event := o.trace.filter Event.isWrite

def Outcome.dispatchedPayloads (o : Outcome) : List Payload :=
  o.trace.filterMap Event.payloadOf

/-- The value of column `field` of row `rowId` of `table` after the trace
has been applied to a store in which it held `init`. -/
def finalFieldValue (table field rowId : String) (init : DbValue)
    (trace : List Event) : DbValue :=
  trace.foldl (fun acc e =>
    match e with
    | .write t fs r =>
        if t = table && r = rowId then
          match fs.lookup field with
          | some v => v
          | none => acc
        else acc
    | _ => acc) init

/-- The process environment (`Deno.env`): every variable the four handlers
read, each possibly unset. -/
structure Env where
  supabaseUrl : Option String
  supabaseAnonKey : Option String
  supabaseServiceRoleKey : Option String
  documentProcessingWebhookUrl : Option String
  additionalSourcesWebhookUrl : Option String
  notebookChatUrl : Option String
  notebookGenerationUrl : Option String
  notebookGenerationAuth : Option String
deriving DecidableEq

/-- Row returned by the `sources` lookup of process-document:
`select id, notebook_id, notebooks!inner(user_id)`. -/
structure SourceRec where
  id : String
  notebook_id : String
  notebook_user_id : String
deriving DecidableEq

/-- Row returned by the `notebooks` lookup: `select id, user_id`. -/
structure NotebookRec where
  id : String
  user_id : String
deriving DecidableEq

/-! ### process-document -/

/-- Parsed inbound request of process-document. -/
structure DocRequest where
  method : String
  authHeader : Option String
  sourceId : Option String
  filePath : Option String
  sourceType : Option String
deriving DecidableEq

/-- Collaborator outcomes for one process-document call: the verified user
(`auth.getUser`), the source lookup, and the status of the webhook fetch. -/
structure DocWorld where
  authUser : Option String
  sourceLookup : Option SourceRec
  dispatchStatus : Nat
deriving DecidableEq

/-- The outbound payload of process-document (lines 111-121 of the source):
`file_url` and `callback_url` are derived from `SUPABASE_URL` by template
literals. -/
def docPayload (req : DocRequest) (env : Env) : Payload :=
  Payload.doc (req.sourceId.getD "")
    (envStr env.supabaseUrl ++ "/storage/v1/object/public/sources/"
      ++ req.filePath.getD "")
    (req.filePath.getD "")
    (req.sourceType.getD "")
    (envStr env.supabaseUrl ++ "/functions/v1/process-document-callback")

/-- The process-document serve handler
(`src/supabase/functions/process-document/index.ts`). -/
def processDocument (req : DocRequest) (env : Env) (w : DocWorld) : Outcome :=
  if req.method = "OPTIONS" then { status := 200, errorMsg := none, trace := [] }
  else if isFalsy req.authHeader then
    { status := 401, errorMsg := some "Missing authorization header", trace := [] }
  else
    match w.authUser with
    | none =>
        { status := 401, errorMsg := some "Unauthorized - invalid or expired token",
          trace := [] }
    | some uid =>
        if isFalsy req.sourceId || isFalsy req.filePath || isFalsy req.sourceType then
          { status := 400, errorMsg := some "sourceId, filePath, and sourceType are required",
            trace := [] }
        else
          match w.sourceLookup with
          | none => { status := 404, errorMsg := some "Source not found", trace := [] }
          | some src =>
              if src.notebook_user_id ≠ uid then
                { status := 403, errorMsg := some "Forbidden - you do not own this resource",
                  trace := [] }
              else
                let sourceId := req.sourceId.getD ""
                if isFalsy env.documentProcessingWebhookUrl then
                  { status := 500,
                    errorMsg := some "Document processing webhook URL not configured",
                    trace := [Event.write "sources"
                      [("processing_status", DbValue.str "failed")] sourceId] }
                else
                  let webhookUrl := env.documentProcessingWebhookUrl.getD ""
                  let payload := docPayload req env
                  let authHdr :=
                    if isFalsy env.notebookGenerationAuth then none
                    else env.notebookGenerationAuth
                  let dispatchEv := Event.dispatch webhookUrl authHdr payload
                  if responseOk w.dispatchStatus then
                    { status := 200, errorMsg := none, trace := [dispatchEv] }
                  else
                    { status := 500, errorMsg := some "Document processing failed",
                      trace := [dispatchEv,
                        Event.write "sources"
                          [("processing_status", DbValue.str "failed")] sourceId] }

/-! ### process-additional-sources -/

/-- Parsed inbound request of process-additional-sources. -/
structure PasRequest where
  method : String
  authHeader : Option String
  type : Option String
  notebookId : Option String
  urls : Option (List String)
  title : Option String
  content : Option String
  timestamp : Option String
  sourceIds : Option (List String)
deriving DecidableEq

/-- Collaborator outcomes for one process-additional-sources call. -/
structure PasWorld where
  authUser : Option String
  notebookLookup : Option NotebookRec
  dispatchStatus : Nat
  dispatchErrorText : String
deriving DecidableEq

/-- The `multiple-websites` outbound payload of process-additional-sources
(lines 92-99 of the source): body fields passed through unchanged. -/
def mwPayload (req : PasRequest) : Payload :=
  Payload.multipleWebsites req.notebookId req.urls req.sourceIds req.timestamp

/-- The `copied-text` outbound payload of process-additional-sources
(lines 100-108 of the source): `sourceId` is `sourceIds?.[0]`. -/
def ctPayload (req : PasRequest) : Payload :=
  Payload.copiedText req.notebookId req.title req.content
    (req.sourceIds.bind List.head?) req.timestamp

/-- The dispatch tail of process-additional-sources: one fetch, a thrown
error (caught as 500) on a non-2xx response. -/
def pasDispatch (webhookUrl authToken : String) (payload : Payload)
    (w : PasWorld) : Outcome :=
  let dispatchEv := Event.dispatch webhookUrl (some authToken) payload
  if responseOk w.dispatchStatus then
    { status := 200, errorMsg := none, trace := [dispatchEv] }
  else
    { status := 500,
      errorMsg := some ("Webhook request failed: " ++ toString w.dispatchStatus
        ++ " - " ++ w.dispatchErrorText),
      trace := [dispatchEv] }

/-- The process-additional-sources serve handler
(`src/supabase/functions/process-additional-sources/index.ts`).  Thrown
errors (missing configuration, unsupported type, failed webhook) are caught
by the surrounding try/catch and become 500 responses carrying
`error.message`. -/
def processAdditionalSources (req : PasRequest) (env : Env) (w : PasWorld) : Outcome :=
  if req.method = "OPTIONS" then { status := 200, errorMsg := none, trace := [] }
  else if isFalsy req.authHeader then
    { status := 401, errorMsg := some "Missing authorization header", trace := [] }
  else
    match w.authUser with
    | none =>
        { status := 401, errorMsg := some "Unauthorized - invalid or expired token",
          trace := [] }
    | some uid =>
        match w.notebookLookup with
        | none => { status := 404, errorMsg := some "Notebook not found", trace := [] }
        | some nb =>
            if nb.user_id ≠ uid then
              { status := 403, errorMsg := some "Forbidden - you do not own this notebook",
                trace := [] }
            else if isFalsy env.additionalSourcesWebhookUrl then
              { status := 500,
                errorMsg := some "ADDITIONAL_SOURCES_WEBHOOK_URL not configured",
                trace := [] }
            else if isFalsy env.notebookGenerationAuth then
              { status := 500, errorMsg := some "NOTEBOOK_GENERATION_AUTH not configured",
                trace := [] }
            else
              let webhookUrl := env.additionalSourcesWebhookUrl.getD ""
              let authToken := env.notebookGenerationAuth.getD ""
              if req.type = some "multiple-websites" then
                pasDispatch webhookUrl authToken (mwPayload req) w
              else if req.type = some "copied-text" then
                pasDispatch webhookUrl authToken (ctPayload req) w
              else
                { status := 500,
                  errorMsg := some ("Unsupported type: " ++ envStr req.type),
                  trace := [] }

/-! ### send-chat-message -/

/-- Parsed inbound request of send-chat-message. -/
structure ChatRequest where
  method : String
  authHeader : Option String
  session_id : Option String
  message : Option String
deriving DecidableEq

/-- Collaborator outcomes for one send-chat-message call. -/
structure ChatWorld where
  authUser : Option String
  dispatchStatus : Nat
deriving DecidableEq

/-- The outbound payload of send-chat-message (lines 73-78 of the source):
`user_id` is the server-verified identity, `timestamp` is
`new Date().toISOString()` — the clock reading at the time of the call. -/
def chatPayload (req : ChatRequest) (uid now : String) : Payload :=
  Payload.chat req.session_id req.message uid now

/-- The send-chat-message serve handler
(`src/supabase/functions/send-chat-message/index.ts`, first handler).
`now` is the value of `new Date().toISOString()` at the time of the call;
it enters the outbound payload as its `timestamp` field. -/
def sendChatMessage (req : ChatRequest) (env : Env) (w : ChatWorld)
    (now : String) : Outcome :=
  if req.method = "OPTIONS" then { status := 200, errorMsg := none, trace := [] }
  else if isFalsy req.authHeader then
    { status := 401, errorMsg := some "Missing authorization header", trace := [] }
  else
    match w.authUser with
    | none =>
        { status := 401, errorMsg := some "Unauthorized - invalid or expired token",
          trace := [] }
    | some uid =>
        if isFalsy env.notebookChatUrl then
          { status := 500,
            errorMsg := some "NOTEBOOK_CHAT_URL environment variable not set",
            trace := [] }
        else if isFalsy env.notebookGenerationAuth then
          { status := 500,
            errorMsg := some "NOTEBOOK_GENERATION_AUTH environment variable not set",
            trace := [] }
        else
          let dispatchEv := Event.dispatch (env.notebookChatUrl.getD "")
            env.notebookGenerationAuth (chatPayload req uid now)
          if responseOk w.dispatchStatus then
            { status := 200, errorMsg := none, trace := [dispatchEv] }
          else
            { status := 500,
              errorMsg := some ("Webhook responded with status: "
                ++ toString w.dispatchStatus),
              trace := [dispatchEv] }

/-! ### generate-notebook-content (embedded second handler) -/

/-- Parsed inbound request of the generate-notebook-content handler. -/
structure GenRequest where
  method : String
  authHeader : Option String
  notebookId : Option String
  filePath : Option String
  sourceType : Option String
deriving DecidableEq

/-- The `output` object of the web service's JSON response. -/
structure GenOutput where
  title : Option String
  summary : Option String
  notebook_icon : Option String
  background_color : Option String
  example_questions : Option (List String)
deriving DecidableEq

/-- Collaborator outcomes for one generate-notebook-content call:
`contentLookup` is `source?.content` of the stored-content query,
`responseOutput` is `generatedData.output` (absent when the response has no
`output`), `updateFails` is whether the final notebook update errors. -/
structure GenWorld where
  authUser : Option String
  notebookLookup : Option NotebookRec
  contentLookup : Option String
  dispatchStatus : Nat
  responseOutput : Option GenOutput
  updateFails : Bool
deriving DecidableEq

/-- `content.substring(0, 5000)` of the source: the first 5000 units of the
stored content. -/
def truncateContent (s : String) : String := ⟨s.data.take 5000⟩

/-- The outbound payload of generate-notebook-content (lines 226-245 of the
source): for a truthy `filePath` the path is forwarded; otherwise the stored
content (when present and truthy) is included truncated to 5000 units. -/
def genPayload (req : GenRequest) (contentLookup : Option String) : Payload :=
  if ¬ isFalsy req.filePath then
    Payload.generation (req.sourceType.getD "") req.filePath none
  else
    match contentLookup with
    | some c =>
        if c ≠ "" then
          Payload.generation (req.sourceType.getD "") none (some (truncateContent c))
        else Payload.generation (req.sourceType.getD "") none none
    | none => Payload.generation (req.sourceType.getD "") none none

/-- The generate-notebook-content serve handler (embedded after
send-chat-message in `src/supabase/functions/send-chat-message/index.ts`). -/
def generateNotebookContent (req : GenRequest) (env : Env) (w : GenWorld) : Outcome :=
  if req.method = "OPTIONS" then { status := 200, errorMsg := none, trace := [] }
  else if isFalsy req.authHeader then
    { status := 401, errorMsg := some "Missing authorization header", trace := [] }
  else
    match w.authUser with
    | none =>
        { status := 401, errorMsg := some "Unauthorized - invalid or expired token",
          trace := [] }
    | some uid =>
        if isFalsy req.notebookId || isFalsy req.sourceType then
          { status := 400, errorMsg := some "notebookId and sourceType are required",
            trace := [] }
        else
          match w.notebookLookup with
          | none => { status := 404, errorMsg := some "Notebook not found", trace := [] }
          | some nb =>
              if nb.user_id ≠ uid then
                { status := 403,
                  errorMsg := some "Forbidden - you do not own this notebook",
                  trace := [] }
              else if isFalsy env.notebookGenerationUrl
                  || isFalsy env.notebookGenerationAuth then
                { status := 500, errorMsg := some "Web service configuration missing",
                  trace := [] }
              else
                let notebookId := req.notebookId.getD ""
                let generatingEv := Event.write "notebooks"
                  [("generation_status", DbValue.str "generating")] notebookId
                let dispatchEv := Event.dispatch (env.notebookGenerationUrl.getD "")
                  env.notebookGenerationAuth (genPayload req w.contentLookup)
                let failedEv := Event.write "notebooks"
                  [("generation_status", DbValue.str "failed")] notebookId
                if ¬ responseOk w.dispatchStatus then
                  { status := 500,
                    errorMsg := some "Failed to generate content from web service",
                    trace := [generatingEv, dispatchEv, failedEv] }
                else
                  match w.responseOutput with
                  | none =>
                      { status := 500,
                        errorMsg := some "Invalid response format from web service",
                        trace := [generatingEv, dispatchEv, failedEv] }
                  | some out =>
                      if isFalsy out.title then
                        { status := 500,
                          errorMsg := some "No title in response from web service",
                          trace := [generatingEv, dispatchEv, failedEv] }
                      else
                        let completedEv := Event.write "notebooks"
                          [("title", DbValue.str (out.title.getD "")),
                           ("description",
                             if isFalsy out.summary then DbValue.null
                             else DbValue.str (out.summary.getD "")),
                           ("icon", DbValue.str (jsOr out.notebook_icon "üìù")),
                           ("color", DbValue.str (jsOr out.background_color "bg-gray-100")),
                           ("example_questions",
                             DbValue.strList (out.example_questions.getD [])),
                           ("generation_status", DbValue.str "completed")] notebookId
                        if w.updateFails then
                          { status := 500, errorMsg := some "Failed to update notebook",
                            trace := [generatingEv, dispatchEv, completedEv] }
                        else
                          { status := 200, errorMsg := none,
                            trace := [generatingEv, dispatchEv, completedEv] }

/-! ### Concrete sample inputs

Used by witnesses and counterexamples below. -/

/-- An environment with every variable the handlers read set. -/
def envFull : Env :=
  { supabaseUrl := some "https://base", supabaseAnonKey := some "anon",
    supabaseServiceRoleKey := some "svc",
    documentProcessingWebhookUrl := some "https://hook/doc",
    additionalSourcesWebhookUrl := some "https://hook/pas",
    notebookChatUrl := some "https://hook/chat",
    notebookGenerationUrl := some "https://hook/gen",
    notebookGenerationAuth := some "secret" }

def srcOwned : SourceRec := { id := "s1", notebook_id := "n1", notebook_user_id := "u1" }

def srcOther : SourceRec := { id := "s1", notebook_id := "n1", notebook_user_id := "u2" }

def nbOwned : NotebookRec := { id := "n1", user_id := "u1" }

def nbOther : NotebookRec := { id := "n1", user_id := "u2" }

def docReqOk : DocRequest :=
  { method := "POST", authHeader := some "Bearer t", sourceId := some "s1",
    filePath := some "docs/a.pdf", sourceType := some "pdf" }

def docWorldOk : DocWorld :=
  { authUser := some "u1", sourceLookup := some srcOwned, dispatchStatus := 200 }

def docWorldForbidden : DocWorld := { docWorldOk with sourceLookup := some srcOther }

def pasReqMW : PasRequest :=
  { method := "POST", authHeader := some "Bearer t", type := some "multiple-websites",
    notebookId := some "n1", urls := some ["https://a", "https://b"], title := none,
    content := none, timestamp := some "2025-01-01T00:00:00.000Z",
    sourceIds := some ["sa", "sb"] }

def pasWorldOk : PasWorld :=
  { authUser := some "u1", notebookLookup := some nbOwned, dispatchStatus := 200,
    dispatchErrorText := "" }

def pasWorldForbidden : PasWorld := { pasWorldOk with notebookLookup := some nbOther }

def chatReq : ChatRequest :=
  { method := "POST", authHeader := some "Bearer t", session_id := some "sess",
    message := some "hi" }

def chatWorldOk : ChatWorld := { authUser := some "u1", dispatchStatus := 200 }

def genReqText : GenRequest :=
  { method := "POST", authHeader := some "Bearer t", notebookId := some "n1",
    filePath := none, sourceType := some "txt" }

def genOutputOk : GenOutput :=
  { title := some "T", summary := none, notebook_icon := none,
    background_color := none, example_questions := none }

def genWorldOk : GenWorld :=
  { authUser := some "u1", notebookLookup := some nbOwned, contentLookup := some "hello",
    dispatchStatus := 200, responseOutput := some genOutputOk, updateFails := false }

def genWorldForbidden : GenWorld := { genWorldOk with notebookLookup := some nbOther }

def docWorldFail : DocWorld := { docWorldOk with dispatchStatus := 502 }

def pasWorldFail : PasWorld :=
  { pasWorldOk with dispatchStatus := 500, dispatchErrorText := "boom" }

def genWorldFail : GenWorld := { genWorldOk with dispatchStatus := 503 }

def envNoDocUrl : Env := { envFull with documentProcessingWebhookUrl := none }

def envNoSecret : Env := { envFull with notebookGenerationAuth := none }

def envNoPasUrl : Env := { envFull with additionalSourcesWebhookUrl := none }

def pasReqMWnoUrls : PasRequest := { pasReqMW with urls := none }

def pasReqBad : PasRequest := { pasReqMW with type := some "bogus" }

/-- A stored content string of 5001 units, longer than the truncation bound. -/
def longContent : String := ⟨List.replicate 5001 'a'⟩

/-- Effect-trace shape of generate-notebook-content once every gate has
passed: the first effect is the `generating` status write, the second the
dispatch carrying `genPayload`, and that dispatch is the only one. -/
lemma gen_effects (req : GenRequest) (env : Env) (w : GenWorld) (uid : String)
    (nb : NotebookRec)
    (hm : req.method ≠ "OPTIONS") (ha : isFalsy req.authHeader = false)
    (hu : w.authUser = some uid)
    (h1 : isFalsy req.notebookId = false) (h2 : isFalsy req.sourceType = false)
    (hn : w.notebookLookup = some nb) (hown : nb.user_id = uid)
    (hc1 : isFalsy env.notebookGenerationUrl = false)
    (hc2 : isFalsy env.notebookGenerationAuth = false) :
    (generateNotebookContent req env w).trace.take 2 =
      [Event.write "notebooks" [("generation_status", DbValue.str "generating")]
        (req.notebookId.getD ""),
       Event.dispatch (env.notebookGenerationUrl.getD "") env.notebookGenerationAuth
        (genPayload req w.contentLookup)] ∧
    (generateNotebookContent req env w).dispatchedPayloads =
      [genPayload req w.contentLookup] := by
  by_cases hd : responseOk w.dispatchStatus
  · rcases hro : w.responseOutput with _ | out
    · simp [generateNotebookContent, Outcome.dispatchedPayloads, Event.payloadOf,
        hm, ha, hu, h1, h2, hn, hown, hc1, hc2, hd, hro]
    · by_cases ht : isFalsy out.title
      · simp [generateNotebookContent, Outcome.dispatchedPayloads, Event.payloadOf,
          hm, ha, hu, h1, h2, hn, hown, hc1, hc2, hd, hro, ht]
      · by_cases hup : w.updateFails
        · simp [generateNotebookContent, Outcome.dispatchedPayloads, Event.payloadOf,
            hm, ha, hu, h1, h2, hn, hown, hc1, hc2, hd, hro, ht, hup]
        · simp [generateNotebookContent, Outcome.dispatchedPayloads, Event.payloadOf,
            hm, ha, hu, h1, h2, hn, hown, hc1, hc2, hd, hro, ht, hup]
  · simp [generateNotebookContent, Outcome.dispatchedPayloads, Event.payloadOf,
      hm, ha, hu, h1, h2, hn, hown, hc1, hc2, hd]

/-! ### Claims -/

/-- C1: for every call in which the resolved owner identity differs from the
verified caller identity, the handler responds with HTTP status 403, and no
outbound dispatch and no store write occurs (the effect trace is empty).
Stated for the three handlers that resolve an owner — process-document
(source → notebook → owner), process-additional-sources and
generate-notebook-content (notebook → owner); send-chat-message resolves no
owner, so the claim is vacuous there. -/
theorem C1_ownership_mismatch_forbidden :
    (∀ (req : DocRequest) (env : Env) (w : DocWorld) (uid : String) (src : SourceRec),
      req.method ≠ "OPTIONS" → isFalsy req.authHeader = false →
      w.authUser = some uid →
      isFalsy req.sourceId = false → isFalsy req.filePath = false →
      isFalsy req.sourceType = false →
      w.sourceLookup = some src → src.notebook_user_id ≠ uid →
      (processDocument req env w).status = 403 ∧
        (processDocument req env w).trace = []) ∧
    (∀ (req : PasRequest) (env : Env) (w : PasWorld) (uid : String) (nb : NotebookRec),
      req.method ≠ "OPTIONS" → isFalsy req.authHeader = false →
      w.authUser = some uid → w.notebookLookup = some nb → nb.user_id ≠ uid →
      (processAdditionalSources req env w).status = 403 ∧
        (processAdditionalSources req env w).trace = []) ∧
    (∀ (req : GenRequest) (env : Env) (w : GenWorld) (uid : String) (nb : NotebookRec),
      req.method ≠ "OPTIONS" → isFalsy req.authHeader = false →
      w.authUser = some uid →
      isFalsy req.notebookId = false → isFalsy req.sourceType = false →
      w.notebookLookup = some nb → nb.user_id ≠ uid →
      (generateNotebookContent req env w).status = 403 ∧
        (generateNotebookContent req env w).trace = []) := by
  refine ⟨?_, ?_, ?_⟩
  · intro req env w uid src hm ha hu h1 h2 h3 hs hown
    simp [processDocument, hm, ha, hu, h1, h2, h3, hs, hown]
  · intro req env w uid nb hm ha hu hn hown
    simp [processAdditionalSources, hm, ha, hu, hn, hown]
  · intro req env w uid nb hm ha hu h1 h2 hn hown
    simp [generateNotebookContent, hm, ha, hu, h1, h2, hn, hown]

/-- Witness for C1: caller `u1` hitting resources owned by `u2` gets 403 from
all three owner-resolving handlers. -/
theorem C1_ownership_mismatch_forbidden_witness :
    (processDocument docReqOk envFull docWorldForbidden).status = 403 ∧
    (processAdditionalSources pasReqMW envFull pasWorldForbidden).status = 403 ∧
    (generateNotebookContent genReqText envFull genWorldForbidden).status = 403 :=
  ⟨(C1_ownership_mismatch_forbidden.1 docReqOk envFull docWorldForbidden "u1" srcOther
      (by decide) (by decide) rfl (by decide) (by decide) (by decide) rfl (by decide)).1,
   (C1_ownership_mismatch_forbidden.2.1 pasReqMW envFull pasWorldForbidden "u1" nbOther
      (by decide) (by decide) rfl rfl (by decide)).1,
   (C1_ownership_mismatch_forbidden.2.2 genReqText envFull genWorldForbidden "u1" nbOther
      (by decide) (by decide) rfl (by decide) (by decide) rfl (by decide)).1⟩

/-- C4: every non-preflight call lacking an authorization header is answered
with HTTP status 401 and no store write (and no dispatch: the effect trace is
empty), in all four handlers.  OPTIONS preflight calls are excluded: they are
answered 200 with no body before the header check. -/
theorem C4_missing_auth_401_no_write :
    (∀ (req : DocRequest) (env : Env) (w : DocWorld),
      req.method ≠ "OPTIONS" → req.authHeader = none →
      (processDocument req env w).status = 401 ∧
        (processDocument req env w).trace = []) ∧
    (∀ (req : PasRequest) (env : Env) (w : PasWorld),
      req.method ≠ "OPTIONS" → req.authHeader = none →
      (processAdditionalSources req env w).status = 401 ∧
        (processAdditionalSources req env w).trace = []) ∧
    (∀ (req : ChatRequest) (env : Env) (w : ChatWorld) (now : String),
      req.method ≠ "OPTIONS" → req.authHeader = none →
      (sendChatMessage req env w now).status = 401 ∧
        (sendChatMessage req env w now).trace = []) ∧
    (∀ (req : GenRequest) (env : Env) (w : GenWorld),
      req.method ≠ "OPTIONS" → req.authHeader = none →
      (generateNotebookContent req env w).status = 401 ∧
        (generateNotebookContent req env w).trace = []) := by
  refine ⟨?_, ?_, ?_, ?_⟩
  · intro req env w hm ha
    simp [processDocument, hm, ha, isFalsy]
  · intro req env w hm ha
    simp [processAdditionalSources, hm, ha, isFalsy]
  · intro req env w now hm ha
    simp [sendChatMessage, hm, ha, isFalsy]
  · intro req env w hm ha
    simp [generateNotebookContent, hm, ha, isFalsy]

/-- Witness for C4: the sample requests with the authorization header removed
get 401 from all four handlers. -/
theorem C4_missing_auth_401_no_write_witness :
    (processDocument { docReqOk with authHeader := none } envFull docWorldOk).status = 401 ∧
    (processAdditionalSources { pasReqMW with authHeader := none } envFull pasWorldOk).status = 401 ∧
    (sendChatMessage { chatReq with authHeader := none } envFull chatWorldOk "t0").status = 401 ∧
    (generateNotebookContent { genReqText with authHeader := none } envFull genWorldOk).status = 401 :=
  ⟨(C4_missing_auth_401_no_write.1 { docReqOk with authHeader := none } envFull docWorldOk
      (by decide) rfl).1,
   (C4_missing_auth_401_no_write.2.1 { pasReqMW with authHeader := none } envFull pasWorldOk
      (by decide) rfl).1,
   (C4_missing_auth_401_no_write.2.2.1 { chatReq with authHeader := none } envFull chatWorldOk
      "t0" (by decide) rfl).1,
   (C4_missing_auth_401_no_write.2.2.2 { genReqText with authHeader := none } envFull genWorldOk
      (by decide) rfl).1⟩

/-- C7: a document-processing call with `sourceId="s1"`, `filePath="docs/a.pdf"`,
`sourceType="pdf"`, where the caller owns the parent notebook of the source,
the webhook URL is configured and the dispatch succeeds, sends exactly the
payload `{source_id:"s1", file_url:"<base>/storage/v1/object/public/sources/docs/a.pdf",
file_path:"docs/a.pdf", source_type:"pdf",
callback_url:"<base>/functions/v1/process-document-callback"}` (with `<base>`
the configured store URL) and responds 200. -/
theorem C7_document_scenario (base : String) (req : DocRequest) (env : Env)
    (w : DocWorld) (uid : String) (src : SourceRec)
    (hm : req.method ≠ "OPTIONS") (ha : isFalsy req.authHeader = false)
    (h1 : req.sourceId = some "s1") (h2 : req.filePath = some "docs/a.pdf")
    (h3 : req.sourceType = some "pdf")
    (hu : w.authUser = some uid) (hs : w.sourceLookup = some src)
    (hown : src.notebook_user_id = uid)
    (hb : env.supabaseUrl = some base)
    (hcfg : isFalsy env.documentProcessingWebhookUrl = false)
    (hd : responseOk w.dispatchStatus = true) :
    (processDocument req env w).status = 200 ∧
    (processDocument req env w).dispatchedPayloads =
      [Payload.doc "s1" (base ++ "/storage/v1/object/public/sources/docs/a.pdf")
        "docs/a.pdf" "pdf" (base ++ "/functions/v1/process-document-callback")] := by
  simp [processDocument, docPayload, Outcome.dispatchedPayloads, Event.payloadOf,
    envStr, hm, ha, hu, h1, h2, h3, hs, hown, hb, hcfg, hd, String.append_assoc]
  simp [isFalsy, Event.payloadOf]

/-- Witness for C7 at the concrete sample call with `<base> = "https://base"`. -/
theorem C7_document_scenario_witness :
    (processDocument docReqOk envFull docWorldOk).status = 200 ∧
    (processDocument docReqOk envFull docWorldOk).dispatchedPayloads =
      [Payload.doc "s1" "https://base/storage/v1/object/public/sources/docs/a.pdf"
        "docs/a.pdf" "pdf" "https://base/functions/v1/process-document-callback"] :=
  C7_document_scenario "https://base" docReqOk envFull docWorldOk "u1" srcOwned
    (by decide) (by decide) rfl rfl rfl rfl rfl (by decide) rfl (by decide) (by decide)

/-- C2 counterexample: the claim "for every call in which the dispatch
returns a non-2xx response, the owning resource's status field equals
`failed` after the call completes, and the response status is 500" is false
for process-additional-sources: at this concrete input the dispatch fails
(non-2xx), the response is 500, the dispatch did occur, yet no status write
was performed — the notebook's `generation_status` keeps its prior value
`idle`, not `failed`. -/
theorem C2_counterexample :
    (processAdditionalSources pasReqMW envFull pasWorldFail).status = 500 ∧
    (processAdditionalSources pasReqMW envFull pasWorldFail).dispatches ≠ [] ∧
    finalFieldValue "notebooks" "generation_status" "n1" (DbValue.str "idle")
      (processAdditionalSources pasReqMW envFull pasWorldFail).trace ≠
      DbValue.str "failed" := by decide

/-- C2 (amended): when the dispatch returns a non-2xx response, the response
status is 500 in every handler; process-document writes
`processing_status = failed` to the source and generate-notebook-content
writes `generation_status = failed` to the notebook, but
process-additional-sources performs no status write at all. -/
theorem C2_dispatch_failure_amended :
    (∀ (req : DocRequest) (env : Env) (w : DocWorld) (uid : String) (src : SourceRec),
      req.method ≠ "OPTIONS" → isFalsy req.authHeader = false →
      w.authUser = some uid →
      isFalsy req.sourceId = false → isFalsy req.filePath = false →
      isFalsy req.sourceType = false →
      w.sourceLookup = some src → src.notebook_user_id = uid →
      isFalsy env.documentProcessingWebhookUrl = false →
      responseOk w.dispatchStatus = false →
      (processDocument req env w).status = 500 ∧
      ∀ init, finalFieldValue "sources" "processing_status" (req.sourceId.getD "") init
        (processDocument req env w).trace = DbValue.str "failed") ∧
    (∀ (req : GenRequest) (env : Env) (w : GenWorld) (uid : String) (nb : NotebookRec),
      req.method ≠ "OPTIONS" → isFalsy req.authHeader = false →
      w.authUser = some uid →
      isFalsy req.notebookId = false → isFalsy req.sourceType = false →
      w.notebookLookup = some nb → nb.user_id = uid →
      isFalsy env.notebookGenerationUrl = false →
      isFalsy env.notebookGenerationAuth = false →
      responseOk w.dispatchStatus = false →
      (generateNotebookContent req env w).status = 500 ∧
      ∀ init, finalFieldValue "notebooks" "generation_status" (req.notebookId.getD "") init
        (generateNotebookContent req env w).trace = DbValue.str "failed") ∧
    (∀ (req : PasRequest) (env : Env) (w : PasWorld) (uid : String) (nb : NotebookRec),
      req.method ≠ "OPTIONS" → isFalsy req.authHeader = false →
      w.authUser = some uid → w.notebookLookup = some nb → nb.user_id = uid →
      isFalsy env.additionalSourcesWebhookUrl = false →
      isFalsy env.notebookGenerationAuth = false →
      (req.type = some "multiple-websites" ∨ req.type = some "copied-text") →
      responseOk w.dispatchStatus = false →
      (processAdditionalSources req env w).status = 500 ∧
      (processAdditionalSources req env w).writes = []) := by
  refine ⟨?_, ?_, ?_⟩
  · intro req env w uid src hm ha hu h1 h2 h3 hs hown hcfg hd
    simp [processDocument, finalFieldValue, List.lookup,
      hm, ha, hu, h1, h2, h3, hs, hown, hcfg, hd]
  · intro req env w uid nb hm ha hu h1 h2 hn hown hc1 hc2 hd
    simp [generateNotebookContent, finalFieldValue, List.lookup,
      hm, ha, hu, h1, h2, hn, hown, hc1, hc2, hd]
  · intro req env w uid nb hm ha hu hn hown hc1 hc2 htype hd
    rcases htype with ht | ht
    · simp [processAdditionalSources, pasDispatch, Outcome.writes, Event.isWrite,
        hm, ha, hu, hn, hown, hc1, hc2, ht, hd]
    · simp [processAdditionalSources, pasDispatch, Outcome.writes, Event.isWrite,
        hm, ha, hu, hn, hown, hc1, hc2, ht, hd]

/-- Witness for the amended C2 at concrete failing dispatches (status 502,
503, 500 respectively). -/
theorem C2_dispatch_failure_amended_witness :
    ((processDocument docReqOk envFull docWorldFail).status = 500 ∧
     finalFieldValue "sources" "processing_status" "s1" (DbValue.str "pending")
       (processDocument docReqOk envFull docWorldFail).trace = DbValue.str "failed") ∧
    ((generateNotebookContent genReqText envFull genWorldFail).status = 500 ∧
     finalFieldValue "notebooks" "generation_status" "n1" (DbValue.str "generating")
       (generateNotebookContent genReqText envFull genWorldFail).trace =
       DbValue.str "failed") ∧
    ((processAdditionalSources pasReqMW envFull pasWorldFail).status = 500 ∧
     (processAdditionalSources pasReqMW envFull pasWorldFail).writes = []) :=
  ⟨⟨(C2_dispatch_failure_amended.1 docReqOk envFull docWorldFail "u1" srcOwned
      (by decide) (by decide) rfl (by decide) (by decide) (by decide) rfl rfl
      (by decide) (by decide)).1,
    (C2_dispatch_failure_amended.1 docReqOk envFull docWorldFail "u1" srcOwned
      (by decide) (by decide) rfl (by decide) (by decide) (by decide) rfl rfl
      (by decide) (by decide)).2 (DbValue.str "pending")⟩,
   ⟨(C2_dispatch_failure_amended.2.1 genReqText envFull genWorldFail "u1" nbOwned
      (by decide) (by decide) rfl (by decide) (by decide) rfl rfl (by decide)
      (by decide) (by decide)).1,
    (C2_dispatch_failure_amended.2.1 genReqText envFull genWorldFail "u1" nbOwned
      (by decide) (by decide) rfl (by decide) (by decide) rfl rfl (by decide)
      (by decide) (by decide)).2 (DbValue.str "generating")⟩,
   C2_dispatch_failure_amended.2.2 pasReqMW envFull pasWorldFail "u1" nbOwned
      (by decide) (by decide) rfl rfl rfl (by decide) (by decide)
      (Or.inl rfl) (by decide)⟩

/-- C3 counterexample: the claim "a missing processor endpoint URL or shared
secret yields HTTP 500 and does not mutate the resource's status field" is
false for process-document twice over: with the webhook URL unset the
response is 500 but the handler first writes `processing_status = failed`
(a status mutation); with only the shared secret unset the handler does not
fail at all — it dispatches without an authorization header and responds
200. -/
theorem C3_counterexample :
    ((processDocument docReqOk envNoDocUrl docWorldOk).status = 500 ∧
     (processDocument docReqOk envNoDocUrl docWorldOk).writes ≠ []) ∧
    ((processDocument docReqOk envNoSecret docWorldOk).status = 200 ∧
     (processDocument docReqOk envNoSecret docWorldOk).dispatches ≠ []) := by decide

/-- C3 (amended): a missing endpoint URL or shared secret yields HTTP 500
with no store write in generate-notebook-content, send-chat-message and
process-additional-sources.  In process-document, a missing webhook URL
yields 500 but writes `processing_status = failed` to the source first, and
a missing shared secret is not an error: the dispatch proceeds without an
authorization header. -/
theorem C3_misconfiguration_amended :
    (∀ (req : GenRequest) (env : Env) (w : GenWorld) (uid : String) (nb : NotebookRec),
      req.method ≠ "OPTIONS" → isFalsy req.authHeader = false →
      w.authUser = some uid →
      isFalsy req.notebookId = false → isFalsy req.sourceType = false →
      w.notebookLookup = some nb → nb.user_id = uid →
      (isFalsy env.notebookGenerationUrl = true ∨
        isFalsy env.notebookGenerationAuth = true) →
      (generateNotebookContent req env w).status = 500 ∧
        (generateNotebookContent req env w).trace = []) ∧
    (∀ (req : ChatRequest) (env : Env) (w : ChatWorld) (now uid : String),
      req.method ≠ "OPTIONS" → isFalsy req.authHeader = false →
      w.authUser = some uid →
      (isFalsy env.notebookChatUrl = true ∨
        isFalsy env.notebookGenerationAuth = true) →
      (sendChatMessage req env w now).status = 500 ∧
        (sendChatMessage req env w now).trace = []) ∧
    (∀ (req : PasRequest) (env : Env) (w : PasWorld) (uid : String) (nb : NotebookRec),
      req.method ≠ "OPTIONS" → isFalsy req.authHeader = false →
      w.authUser = some uid → w.notebookLookup = some nb → nb.user_id = uid →
      (isFalsy env.additionalSourcesWebhookUrl = true ∨
        isFalsy env.notebookGenerationAuth = true) →
      (processAdditionalSources req env w).status = 500 ∧
        (processAdditionalSources req env w).trace = []) ∧
    (∀ (req : DocRequest) (env : Env) (w : DocWorld) (uid : String) (src : SourceRec),
      req.method ≠ "OPTIONS" → isFalsy req.authHeader = false →
      w.authUser = some uid →
      isFalsy req.sourceId = false → isFalsy req.filePath = false →
      isFalsy req.sourceType = false →
      w.sourceLookup = some src → src.notebook_user_id = uid →
      isFalsy env.documentProcessingWebhookUrl = true →
      (processDocument req env w).status = 500 ∧
      (processDocument req env w).trace =
        [Event.write "sources" [("processing_status", DbValue.str "failed")]
          (req.sourceId.getD "")]) ∧
    (∀ (req : DocRequest) (env : Env) (w : DocWorld) (uid : String) (src : SourceRec),
      req.method ≠ "OPTIONS" → isFalsy req.authHeader = false →
      w.authUser = some uid →
      isFalsy req.sourceId = false → isFalsy req.filePath = false →
      isFalsy req.sourceType = false →
      w.sourceLookup = some src → src.notebook_user_id = uid →
      isFalsy env.documentProcessingWebhookUrl = false →
      isFalsy env.notebookGenerationAuth = true →
      (processDocument req env w).dispatches =
        [Event.dispatch (env.documentProcessingWebhookUrl.getD "") none
          (docPayload req env)]) := by
  refine ⟨?_, ?_, ?_, ?_, ?_⟩
  · intro req env w uid nb hm ha hu h1 h2 hn hown hcfg
    rcases hcfg with hc | hc
    · simp [generateNotebookContent, hm, ha, hu, h1, h2, hn, hown, hc]
    · by_cases hc1 : isFalsy env.notebookGenerationUrl
      · simp [generateNotebookContent, hm, ha, hu, h1, h2, hn, hown, hc1]
      · simp [generateNotebookContent, hm, ha, hu, h1, h2, hn, hown, hc1, hc]
  · intro req env w now uid hm ha hu hcfg
    rcases hcfg with hc | hc
    · simp [sendChatMessage, hm, ha, hu, hc]
    · by_cases hc1 : isFalsy env.notebookChatUrl
      · simp [sendChatMessage, hm, ha, hu, hc1]
      · simp [sendChatMessage, hm, ha, hu, hc1, hc]
  · intro req env w uid nb hm ha hu hn hown hcfg
    rcases hcfg with hc | hc
    · simp [processAdditionalSources, hm, ha, hu, hn, hown, hc]
    · by_cases hc1 : isFalsy env.additionalSourcesWebhookUrl
      · simp [processAdditionalSources, hm, ha, hu, hn, hown, hc1]
      · simp [processAdditionalSources, hm, ha, hu, hn, hown, hc1, hc]
  · intro req env w uid src hm ha hu h1 h2 h3 hs hown hcfg
    simp [processDocument, hm, ha, hu, h1, h2, h3, hs, hown, hcfg]
  · intro req env w uid src hm ha hu h1 h2 h3 hs hown hcfg hsec
    by_cases hd : responseOk w.dispatchStatus
    · simp [processDocument, Outcome.dispatches, Event.isDispatch,
        hm, ha, hu, h1, h2, h3, hs, hown, hcfg, hsec, hd]
    · simp [processDocument, Outcome.dispatches, Event.isDispatch,
        hm, ha, hu, h1, h2, h3, hs, hown, hcfg, hsec, hd]

/-- Witness for the amended C3: missing secret (gen, chat, pas), missing
webhook URL (process-document, with the failed write), and missing secret
only (process-document, dispatching with no authorization header). -/
theorem C3_misconfiguration_amended_witness :
    ((generateNotebookContent genReqText envNoSecret genWorldOk).status = 500 ∧
      (generateNotebookContent genReqText envNoSecret genWorldOk).trace = []) ∧
    ((sendChatMessage chatReq envNoSecret chatWorldOk "t0").status = 500 ∧
      (sendChatMessage chatReq envNoSecret chatWorldOk "t0").trace = []) ∧
    ((processAdditionalSources pasReqMW envNoSecret pasWorldOk).status = 500 ∧
      (processAdditionalSources pasReqMW envNoSecret pasWorldOk).trace = []) ∧
    ((processDocument docReqOk envNoDocUrl docWorldOk).status = 500 ∧
      (processDocument docReqOk envNoDocUrl docWorldOk).trace =
        [Event.write "sources" [("processing_status", DbValue.str "failed")] "s1"]) ∧
    (processDocument docReqOk envNoSecret docWorldOk).dispatches =
      [Event.dispatch "https://hook/doc" none (docPayload docReqOk envNoSecret)] :=
  ⟨C3_misconfiguration_amended.1 genReqText envNoSecret genWorldOk "u1" nbOwned
      (by decide) (by decide) rfl (by decide) (by decide) rfl rfl (Or.inr rfl),
   C3_misconfiguration_amended.2.1 chatReq envNoSecret chatWorldOk "t0" "u1"
      (by decide) (by decide) rfl (Or.inr rfl),
   C3_misconfiguration_amended.2.2.1 pasReqMW envNoSecret pasWorldOk "u1" nbOwned
      (by decide) (by decide) rfl rfl rfl (Or.inr rfl),
   C3_misconfiguration_amended.2.2.2.1 docReqOk envNoDocUrl docWorldOk "u1" srcOwned
      (by decide) (by decide) rfl (by decide) (by decide) (by decide) rfl rfl rfl,
   C3_misconfiguration_amended.2.2.2.2 docReqOk envNoSecret docWorldOk "u1" srcOwned
      (by decide) (by decide) rfl (by decide) (by decide) (by decide) rfl rfl
      (by decide) rfl⟩

/-- C5 counterexample: the claim "generation-job and document-job calls that
pass all checks write an intermediate in-progress status before dispatch" is
false for the document job: at this concrete fully-passing process-document
call the dispatch occurs and the response is 200, but the handler performed
no store write at all — in particular no in-progress `processing_status`
write before the dispatch. -/
theorem C5_counterexample :
    (processDocument docReqOk envFull docWorldOk).status = 200 ∧
    (processDocument docReqOk envFull docWorldOk).dispatches ≠ [] ∧
    (processDocument docReqOk envFull docWorldOk).writes = [] := by decide

/-- C5 (amended): only the generation job writes an intermediate in-progress
status before dispatch: generate-notebook-content's first two effects are
the `generation_status = generating` write followed by the dispatch.  The
document job writes no in-progress status: process-document's first effect
is the dispatch itself, and on dispatch success it performs no write at
all. -/
theorem C5_in_progress_amended :
    (∀ (req : GenRequest) (env : Env) (w : GenWorld) (uid : String) (nb : NotebookRec),
      req.method ≠ "OPTIONS" → isFalsy req.authHeader = false →
      w.authUser = some uid →
      isFalsy req.notebookId = false → isFalsy req.sourceType = false →
      w.notebookLookup = some nb → nb.user_id = uid →
      isFalsy env.notebookGenerationUrl = false →
      isFalsy env.notebookGenerationAuth = false →
      (generateNotebookContent req env w).trace.take 2 =
        [Event.write "notebooks" [("generation_status", DbValue.str "generating")]
          (req.notebookId.getD ""),
         Event.dispatch (env.notebookGenerationUrl.getD "") env.notebookGenerationAuth
          (genPayload req w.contentLookup)]) ∧
    (∀ (req : DocRequest) (env : Env) (w : DocWorld) (uid : String) (src : SourceRec),
      req.method ≠ "OPTIONS" → isFalsy req.authHeader = false →
      w.authUser = some uid →
      isFalsy req.sourceId = false → isFalsy req.filePath = false →
      isFalsy req.sourceType = false →
      w.sourceLookup = some src → src.notebook_user_id = uid →
      isFalsy env.documentProcessingWebhookUrl = false →
      (processDocument req env w).trace.take 1 =
        [Event.dispatch (env.documentProcessingWebhookUrl.getD "")
          (if isFalsy env.notebookGenerationAuth then none
           else env.notebookGenerationAuth)
          (docPayload req env)] ∧
      (responseOk w.dispatchStatus = true → (processDocument req env w).writes = [])) := by
  refine ⟨?_, ?_⟩
  · intro req env w uid nb hm ha hu h1 h2 hn hown hc1 hc2
    exact (gen_effects req env w uid nb hm ha hu h1 h2 hn hown hc1 hc2).1
  · intro req env w uid src hm ha hu h1 h2 h3 hs hown hcfg
    constructor
    · by_cases hd : responseOk w.dispatchStatus
      · simp [processDocument, hm, ha, hu, h1, h2, h3, hs, hown, hcfg, hd]
      · simp [processDocument, hm, ha, hu, h1, h2, h3, hs, hown, hcfg, hd]
    · intro hd
      simp [processDocument, Outcome.writes, Event.isWrite,
        hm, ha, hu, h1, h2, h3, hs, hown, hcfg, hd]

/-- Witness for the amended C5 at the concrete passing calls. -/
theorem C5_in_progress_amended_witness :
    (generateNotebookContent genReqText envFull genWorldOk).trace.take 2 =
      [Event.write "notebooks" [("generation_status", DbValue.str "generating")] "n1",
       Event.dispatch "https://hook/gen" (some "secret")
        (genPayload genReqText (some "hello"))] ∧
    (processDocument docReqOk envFull docWorldOk).writes = [] :=
  ⟨C5_in_progress_amended.1 genReqText envFull genWorldOk "u1" nbOwned
      (by decide) (by decide) rfl (by decide) (by decide) rfl rfl (by decide) (by decide),
   (C5_in_progress_amended.2 docReqOk envFull docWorldOk "u1" srcOwned
      (by decide) (by decide) rfl (by decide) (by decide) (by decide) rfl rfl
      (by decide)).2 (by decide)⟩

/-- C6 counterexample: the claim "every call whose body lacks a required
field for its job kind is answered 400 naming the missing fields, with no
ownership lookup or dispatch" is false for the multi-source ingestion
endpoint: this concrete multiple-websites call lacks the required `urls`
field, yet the handler performs the ownership lookup, dispatches, and
responds 200. -/
theorem C6_counterexample :
    (processAdditionalSources pasReqMWnoUrls envFull pasWorldOk).status = 200 ∧
    (processAdditionalSources pasReqMWnoUrls envFull pasWorldOk).dispatches ≠ [] := by
  decide

/-- C6 (amended): process-document and generate-notebook-content answer 400
naming the required fields and perform no effect when a required body field
is missing; process-additional-sources performs no required-field
validation — a missing `urls` field is forwarded to the processor as an
absent payload field and the call proceeds to dispatch. -/
theorem C6_missing_fields_amended :
    (∀ (req : DocRequest) (env : Env) (w : DocWorld) (uid : String),
      req.method ≠ "OPTIONS" → isFalsy req.authHeader = false →
      w.authUser = some uid →
      (isFalsy req.sourceId || isFalsy req.filePath || isFalsy req.sourceType) = true →
      (processDocument req env w).status = 400 ∧
      (processDocument req env w).errorMsg =
        some "sourceId, filePath, and sourceType are required" ∧
      (processDocument req env w).trace = []) ∧
    (∀ (req : GenRequest) (env : Env) (w : GenWorld) (uid : String),
      req.method ≠ "OPTIONS" → isFalsy req.authHeader = false →
      w.authUser = some uid →
      (isFalsy req.notebookId || isFalsy req.sourceType) = true →
      (generateNotebookContent req env w).status = 400 ∧
      (generateNotebookContent req env w).errorMsg =
        some "notebookId and sourceType are required" ∧
      (generateNotebookContent req env w).trace = []) ∧
    (∀ (req : PasRequest) (env : Env) (w : PasWorld) (uid : String) (nb : NotebookRec),
      req.method ≠ "OPTIONS" → isFalsy req.authHeader = false →
      w.authUser = some uid → w.notebookLookup = some nb → nb.user_id = uid →
      isFalsy env.additionalSourcesWebhookUrl = false →
      isFalsy env.notebookGenerationAuth = false →
      req.type = some "multiple-websites" → req.urls = none →
      (processAdditionalSources req env w).dispatchedPayloads =
        [Payload.multipleWebsites req.notebookId none req.sourceIds req.timestamp]) := by
  refine ⟨?_, ?_, ?_⟩
  · intro req env w uid hm ha hu hmiss
    simp [processDocument, hm, ha, hu, hmiss]
  · intro req env w uid hm ha hu hmiss
    simp [generateNotebookContent, hm, ha, hu, hmiss]
  · intro req env w uid nb hm ha hu hn hown hc1 hc2 ht hurls
    by_cases hd : responseOk w.dispatchStatus
    · simp [processAdditionalSources, pasDispatch, mwPayload,
        Outcome.dispatchedPayloads, Event.payloadOf,
        hm, ha, hu, hn, hown, hc1, hc2, ht, hurls, hd]
    · simp [processAdditionalSources, pasDispatch, mwPayload,
        Outcome.dispatchedPayloads, Event.payloadOf,
        hm, ha, hu, hn, hown, hc1, hc2, ht, hurls, hd]

/-- Witness for the amended C6: a document call with no `filePath` gets 400,
a generation call with no `notebookId` gets 400, and a multiple-websites
call with no `urls` dispatches a payload whose `urls` field is absent. -/
theorem C6_missing_fields_amended_witness :
    (processDocument { docReqOk with filePath := none } envFull docWorldOk).status = 400 ∧
    (generateNotebookContent { genReqText with notebookId := none } envFull
      genWorldOk).status = 400 ∧
    (processAdditionalSources pasReqMWnoUrls envFull pasWorldOk).dispatchedPayloads =
      [Payload.multipleWebsites (some "n1") none (some ["sa", "sb"])
        (some "2025-01-01T00:00:00.000Z")] :=
  ⟨(C6_missing_fields_amended.1 { docReqOk with filePath := none } envFull docWorldOk
      "u1" (by decide) (by decide) rfl (by decide)).1,
   (C6_missing_fields_amended.2.1 { genReqText with notebookId := none } envFull
      genWorldOk "u1" (by decide) (by decide) rfl (by decide)).1,
   C6_missing_fields_amended.2.2 pasReqMWnoUrls envFull pasWorldOk "u1" nbOwned
      (by decide) (by decide) rfl rfl rfl (by decide) (by decide) rfl rfl⟩

/-- C8: stored text content longer than 5000 units is truncated by the
content-generation payload builder to exactly its first 5000 units (length
5000 and a prefix of the original), content of 5000 units or fewer is passed
through unchanged, truncation is idempotent, and the builder includes
exactly the truncated content in the outbound payload when the job carries
no file path. -/
theorem C8_truncation :
    (∀ s : String, 5000 < s.length →
      (truncateContent s).length = 5000 ∧ (truncateContent s).data <+: s.data) ∧
    (∀ s : String, s.length ≤ 5000 → truncateContent s = s) ∧
    (∀ s : String, truncateContent (truncateContent s) = truncateContent s) ∧
    (∀ (req : GenRequest) (c : String), isFalsy req.filePath = true → c ≠ "" →
      genPayload req (some c) =
        Payload.generation (req.sourceType.getD "") none (some (truncateContent c))) := by
  refine ⟨?_, ?_, ?_, ?_⟩
  · intro s h
    constructor
    · have he : (truncateContent s).length = (s.data.take 5000).length := rfl
      have h' : 5000 < s.data.length := h
      rw [he, List.length_take]
      omega
    · exact List.take_prefix 5000 s.data
  · intro s h
    have h' : s.data.length ≤ 5000 := h
    cases s with
    | mk data => exact congrArg String.mk (List.take_of_length_le h')
  · intro s
    show String.mk ((s.data.take 5000).take 5000) = String.mk (s.data.take 5000)
    rw [List.take_take, min_self]
  · intro req c hfp hc
    simp [genPayload, hfp, hc]

/-- The sample content exceeds the truncation bound. -/
lemma longContent_gt : 5000 < longContent.length := by
  show 5000 < (List.replicate 5001 'a').length
  rw [List.length_replicate]
  omega

/-- Witness for C8: a 5001-unit content string is cut to 5000 units, a short
string passes through unchanged, and the concrete generation call's payload
carries the truncated stored content. -/
theorem C8_truncation_witness :
    (5000 < longContent.length ∧ (truncateContent longContent).length = 5000) ∧
    ("abc".length ≤ 5000 ∧ truncateContent "abc" = "abc") ∧
    (isFalsy genReqText.filePath = true ∧
      genPayload genReqText (some "hello") =
        Payload.generation "txt" none (some (truncateContent "hello"))) :=
  ⟨⟨longContent_gt, (C8_truncation.1 longContent longContent_gt).1⟩,
   ⟨by decide, C8_truncation.2.1 "abc" (by decide)⟩,
   ⟨rfl, C8_truncation.2.2.2 genReqText "hello" rfl (by decide)⟩⟩

/-- C9 counterexample: the claim "for every job kind, two calls with the same
validated Job Request and the same configuration produce byte-identical
outbound payload bodies" is false for the chat-relay kind: the same request
and configuration dispatched at two different clock readings produce
different payload bodies, because the payload embeds
`new Date().toISOString()`. -/
theorem C9_counterexample :
    (sendChatMessage chatReq envFull chatWorldOk
        "2025-01-01T00:00:00.000Z").dispatchedPayloads ≠
    (sendChatMessage chatReq envFull chatWorldOk
        "2025-01-01T00:00:01.000Z").dispatchedPayloads := by decide

/-- C9 (amended): each handler's dispatched payload is exactly a function of
the validated request, the configuration, and (for the generation job) the
stored content read from the store — so those builders are deterministic.
The chat-relay payload additionally embeds the clock reading `now`, so two
chat calls are byte-identical only when made at the same instant. -/
theorem C9_payload_determinism_amended :
    (∀ (req : DocRequest) (env : Env) (w : DocWorld) (uid : String) (src : SourceRec),
      req.method ≠ "OPTIONS" → isFalsy req.authHeader = false →
      w.authUser = some uid →
      isFalsy req.sourceId = false → isFalsy req.filePath = false →
      isFalsy req.sourceType = false →
      w.sourceLookup = some src → src.notebook_user_id = uid →
      isFalsy env.documentProcessingWebhookUrl = false →
      (processDocument req env w).dispatchedPayloads = [docPayload req env]) ∧
    (∀ (req : PasRequest) (env : Env) (w : PasWorld) (uid : String) (nb : NotebookRec),
      req.method ≠ "OPTIONS" → isFalsy req.authHeader = false →
      w.authUser = some uid → w.notebookLookup = some nb → nb.user_id = uid →
      isFalsy env.additionalSourcesWebhookUrl = false →
      isFalsy env.notebookGenerationAuth = false →
      (req.type = some "multiple-websites" →
        (processAdditionalSources req env w).dispatchedPayloads = [mwPayload req]) ∧
      (req.type = some "copied-text" →
        (processAdditionalSources req env w).dispatchedPayloads = [ctPayload req])) ∧
    (∀ (req : GenRequest) (env : Env) (w : GenWorld) (uid : String) (nb : NotebookRec),
      req.method ≠ "OPTIONS" → isFalsy req.authHeader = false →
      w.authUser = some uid →
      isFalsy req.notebookId = false → isFalsy req.sourceType = false →
      w.notebookLookup = some nb → nb.user_id = uid →
      isFalsy env.notebookGenerationUrl = false →
      isFalsy env.notebookGenerationAuth = false →
      (generateNotebookContent req env w).dispatchedPayloads =
        [genPayload req w.contentLookup]) ∧
    (∀ (req : ChatRequest) (env : Env) (w : ChatWorld) (uid now : String),
      req.method ≠ "OPTIONS" → isFalsy req.authHeader = false →
      w.authUser = some uid →
      isFalsy env.notebookChatUrl = false →
      isFalsy env.notebookGenerationAuth = false →
      (sendChatMessage req env w now).dispatchedPayloads =
        [chatPayload req uid now]) := by
  refine ⟨?_, ?_, ?_, ?_⟩
  · intro req env w uid src hm ha hu h1 h2 h3 hs hown hcfg
    by_cases hd : responseOk w.dispatchStatus
    · simp [processDocument, Outcome.dispatchedPayloads, Event.payloadOf,
        hm, ha, hu, h1, h2, h3, hs, hown, hcfg, hd]
    · simp [processDocument, Outcome.dispatchedPayloads, Event.payloadOf,
        hm, ha, hu, h1, h2, h3, hs, hown, hcfg, hd]
  · intro req env w uid nb hm ha hu hn hown hc1 hc2
    constructor
    · intro ht
      by_cases hd : responseOk w.dispatchStatus
      · simp [processAdditionalSources, pasDispatch, Outcome.dispatchedPayloads,
          Event.payloadOf, hm, ha, hu, hn, hown, hc1, hc2, ht, hd]
      · simp [processAdditionalSources, pasDispatch, Outcome.dispatchedPayloads,
          Event.payloadOf, hm, ha, hu, hn, hown, hc1, hc2, ht, hd]
    · intro ht
      by_cases hd : responseOk w.dispatchStatus
      · simp [processAdditionalSources, pasDispatch, Outcome.dispatchedPayloads,
          Event.payloadOf, hm, ha, hu, hn, hown, hc1, hc2, ht, hd]
      · simp [processAdditionalSources, pasDispatch, Outcome.dispatchedPayloads,
          Event.payloadOf, hm, ha, hu, hn, hown, hc1, hc2, ht, hd]
  · intro req env w uid nb hm ha hu h1 h2 hn hown hc1 hc2
    exact (gen_effects req env w uid nb hm ha hu h1 h2 hn hown hc1 hc2).2
  · intro req env w uid now hm ha hu hc1 hc2
    by_cases hd : responseOk w.dispatchStatus
    · simp [sendChatMessage, Outcome.dispatchedPayloads, Event.payloadOf,
        hm, ha, hu, hc1, hc2, hd]
    · simp [sendChatMessage, Outcome.dispatchedPayloads, Event.payloadOf,
        hm, ha, hu, hc1, hc2, hd]

/-- Witness for the amended C9 at the concrete sample calls. -/
theorem C9_payload_determinism_amended_witness :
    (processDocument docReqOk envFull docWorldOk).dispatchedPayloads =
      [docPayload docReqOk envFull] ∧
    (processAdditionalSources pasReqMW envFull pasWorldOk).dispatchedPayloads =
      [mwPayload pasReqMW] ∧
    (generateNotebookContent genReqText envFull genWorldOk).dispatchedPayloads =
      [genPayload genReqText (some "hello")] ∧
    (sendChatMessage chatReq envFull chatWorldOk "t0").dispatchedPayloads =
      [chatPayload chatReq "u1" "t0"] :=
  ⟨C9_payload_determinism_amended.1 docReqOk envFull docWorldOk "u1" srcOwned
      (by decide) (by decide) rfl (by decide) (by decide) (by decide) rfl rfl (by decide),
   (C9_payload_determinism_amended.2.1 pasReqMW envFull pasWorldOk "u1" nbOwned
      (by decide) (by decide) rfl rfl rfl (by decide) (by decide)).1 rfl,
   C9_payload_determinism_amended.2.2.1 genReqText envFull genWorldOk "u1" nbOwned
      (by decide) (by decide) rfl (by decide) (by decide) rfl rfl (by decide) (by decide),
   C9_payload_determinism_amended.2.2.2 chatReq envFull chatWorldOk "u1" "t0"
      (by decide) (by decide) rfl (by decide) (by decide)⟩

/-- C10 counterexample: the claim "every call passing authentication and
ownership checks whose `type` is neither `multiple-websites` nor
`copied-text` is answered 500 with an error of the form
`Unsupported type: <type>`" is false as stated: this concrete call passes
authentication and ownership and has `type = "bogus"`, but because the
webhook URL is unset the 500 error message is the configuration error, not
`Unsupported type: bogus` — the configuration gate precedes the type
branch. -/
theorem C10_counterexample :
    (processAdditionalSources pasReqBad envNoPasUrl pasWorldOk).status = 500 ∧
    (processAdditionalSources pasReqBad envNoPasUrl pasWorldOk).errorMsg =
      some "ADDITIONAL_SOURCES_WEBHOOK_URL not configured" := by decide

/-- C10 (amended): every call passing authentication, ownership AND
configuration checks whose `type` is neither `multiple-websites` nor
`copied-text` is answered 500 with error `Unsupported type: <type>` and no
dispatch or write occurs (the effect trace is empty). -/
theorem C10_unsupported_type_amended (req : PasRequest) (env : Env) (w : PasWorld)
    (uid : String) (nb : NotebookRec)
    (hm : req.method ≠ "OPTIONS") (ha : isFalsy req.authHeader = false)
    (hu : w.authUser = some uid) (hn : w.notebookLookup = some nb)
    (hown : nb.user_id = uid)
    (hc1 : isFalsy env.additionalSourcesWebhookUrl = false)
    (hc2 : isFalsy env.notebookGenerationAuth = false)
    (ht1 : req.type ≠ some "multiple-websites")
    (ht2 : req.type ≠ some "copied-text") :
    (processAdditionalSources req env w).status = 500 ∧
    (processAdditionalSources req env w).errorMsg =
      some ("Unsupported type: " ++ envStr req.type) ∧
    (processAdditionalSources req env w).trace = [] := by
  simp [processAdditionalSources, hm, ha, hu, hn, hown, hc1, hc2, ht1, ht2]

/-- Witness for the amended C10: `type = "bogus"` with full configuration
gets 500 with message `Unsupported type: bogus` and an empty effect trace. -/
theorem C10_unsupported_type_amended_witness :
    (processAdditionalSources pasReqBad envFull pasWorldOk).status = 500 ∧
    (processAdditionalSources pasReqBad envFull pasWorldOk).errorMsg =
      some "Unsupported type: bogus" ∧
    (processAdditionalSources pasReqBad envFull pasWorldOk).trace = [] :=
  C10_unsupported_type_amended pasReqBad envFull pasWorldOk "u1" nbOwned
    (by decide) (by decide) rfl rfl rfl (by decide) (by decide)
    (by decide) (by decide)

end NotebookLlm
